import Mathlib

/-!
Verification of the hyprpy event-stream protocol engine.

This development embeds, in Lean, the parts of the hyprpy library that
implement the event-stream protocol engine:

* the payload decoders of `hyprpy/components/instancesignals.py`
  (the `_parse_*` methods of `InstanceSignalCollection`),
* the line dispatcher `InstanceSignalCollection._handle_socket_data`,
* the watch loop `Instance.watch` of `hyprpy/components/instances.py`,
  together with its deprecated per-event handler
  `_deprecated_handle_socket_data` and its buffer-splitting handler
  `_handle_socket_data`,
* the socket `read` loop of `hyprpy/utils/sockets.py`,
* the observer bus of `hyprpy/utils/signals.py` with the signature
  assertions of `utils/assertions.py`.

Python strings are modelled as Lean `String`, Python exceptions as
`Except PyError`, and Python `dict` results of the decoders as ordered
association lists.
-/

namespace Hyprpy

/-- The Python exception kinds that the embedded code can raise or catch. -/
inductive PyError where
  /-- Python `ValueError` (tuple-unpack failure, failed `int()` parse, `list.remove` miss). -/
  | valueError
  /-- Python `TypeError`. -/
  | typeError
  /-- hyprpy's own `SocketError`. -/
  | socketError
  /-- Any other OS-level error, identified by its errno (e.g. 104 = ECONNRESET),
      raised as its own exception type (`ConnectionResetError`, ...), not `SocketError`. -/
  | osError (errno : Nat)
  /-- An interruption ending the blocking loop (e.g. `KeyboardInterrupt`). -/
  | interrupted
deriving DecidableEq, Repr

instance {ε α : Type} [DecidableEq ε] [DecidableEq α] : DecidableEq (Except ε α) := fun x y =>
  match x, y with
  | .ok a, .ok b =>
    if h : a = b then .isTrue (congrArg Except.ok h)
    else .isFalse (fun he => h (Except.ok.inj he))
  | .error a, .error b =>
    if h : a = b then .isTrue (congrArg Except.error h)
    else .isFalse (fun he => h (Except.error.inj he))
  | .ok _, .error _ => .isFalse (fun he => Except.noConfusion he)
  | .error _, .ok _ => .isFalse (fun he => Except.noConfusion he)

/-! ## Python string splitting primitives

Embeddings of `str.split` / `str.rsplit` as used by the source:
`split(sep, maxsplit=1)`, `split(sep)` (unlimited), `split(sep, maxsplit=k)`
and `rsplit(sep, maxsplit=1)`, together with the two-element tuple unpacking
the source performs on their results (which raises `ValueError` when the
number of parts does not match, modelled as `Option`). -/

/-- Split at the first occurrence of the character `c`:
the pair (text before, text after), or `none` when `c` does not occur. -/
def splitFirstChar (c : Char) : List Char → Option (List Char × List Char)
  | [] => none
  | x :: xs =>
    if x = c then some ([], xs)
    else (splitFirstChar c xs).map (fun pq => (x :: pq.1, pq.2))

/-- Split at the last occurrence of the character `c`:
the pair (text before, text after), or `none` when `c` does not occur.
This is Python `rsplit(c, maxsplit=1)` unpacked into two variables. -/
def rsplitLastChar (c : Char) : List Char → Option (List Char × List Char)
  | [] => none
  | x :: xs =>
    match rsplitLastChar c xs with
    | some pq => some (x :: pq.1, pq.2)
    | none => if x = c then some ([], xs) else none

/-- Python `str.split(c)` with no maximum: split on every occurrence of `c`.
The result is never empty; splitting the empty string yields `[[]]`. -/
def splitAllChar (c : Char) : List Char → List (List Char)
  | [] => [[]]
  | x :: xs =>
    match splitAllChar c xs with
    | [] => [[]]
    | y :: ys => if x = c then [] :: y :: ys else (x :: y) :: ys

/-- Python `str.split(c, maxsplit=n)`: split on the first `n` occurrences of `c`. -/
def splitCharN (c : Char) : Nat → List Char → List (List Char)
  | 0, l => [l]
  | n + 1, l =>
    match splitFirstChar c l with
    | none => [l]
    | some pq => pq.1 :: splitCharN c n pq.2

/-- Split at the first occurrence of the (nonempty) character pattern `pat`:
the pair (text before, text after the pattern), or `none` when `pat` does not occur. -/
def splitFirstSub (pat : List Char) : List Char → Option (List Char × List Char)
  | [] => none
  | x :: xs =>
    if pat.isPrefixOf (x :: xs) then some ([], (x :: xs).drop pat.length)
    else (splitFirstSub pat xs).map (fun pq => (x :: pq.1, pq.2))

/-- Python `data.split(">>", maxsplit=1)` unpacked into two variables:
`some (name, payload)` when the two-character delimiter occurs, `none`
(a `ValueError`) when it does not. -/
def pySplitArrow (s : String) : Option (String × String) :=
  (splitFirstSub ['>', '>'] s.toList).map (fun pq => (String.mk pq.1, String.mk pq.2))

/-- Python `data.split(c, maxsplit=1)` unpacked into two variables. -/
def pySplitOnceOn (c : Char) (s : String) : Option (String × String) :=
  (splitFirstChar c s.toList).map (fun pq => (String.mk pq.1, String.mk pq.2))

/-- Python `data.rsplit(c, maxsplit=1)` unpacked into two variables. -/
def pyRSplitOnceOn (c : Char) (s : String) : Option (String × String) :=
  (rsplitLastChar c s.toList).map (fun pq => (String.mk pq.1, String.mk pq.2))

/-- Python `data.split(c)` with no maximum, as a list of strings. -/
def pySplitAllOn (c : Char) (s : String) : List String :=
  (splitAllChar c s.toList).map String.mk

/-- Python `data.split(c)` (no maximum) unpacked into exactly two variables:
`none` (a `ValueError`) unless the split yields exactly two parts. -/
def pyUnpack2All (c : Char) (s : String) : Option (String × String) :=
  match pySplitAllOn c s with
  | [a, b] => some (a, b)
  | _ => none

/-- Python `data.split(c, maxsplit=2)` unpacked into exactly three variables. -/
def pyUnpack3 (c : Char) (s : String) : Option (String × String × String) :=
  match (splitCharN c 2 s.toList).map String.mk with
  | [a, b, d] => some (a, b, d)
  | _ => none

/-- Python `data.split(c, maxsplit=3)` unpacked into exactly four variables. -/
def pyUnpack4 (c : Char) (s : String) : Option (String × String × String × String) :=
  match (splitCharN c 3 s.toList).map String.mk with
  | [a, b, d, e] => some (a, b, d, e)
  | _ => none

/-! ## Python `int()` on decimal strings -/

/-- Accumulate a decimal digit string into a natural number; `none` on a non-digit. -/
def parseDigitsAux : List Char → Nat → Option Nat
  | [], acc => some acc
  | c :: cs, acc =>
    if c.isDigit then parseDigitsAux cs (acc * 10 + (c.toNat - 48))
    else none

/-- A nonempty string of decimal digits, as a natural number. -/
def parseDigits : List Char → Option Nat
  | [] => none
  | l => parseDigitsAux l 0

/-- Model of Python `int()` on a decimal string: optional surrounding whitespace,
an optional sign, then a nonempty run of decimal digits; `none` models the
`ValueError` that `int()` raises on any other text. -/
def pyInt (s : String) : Option Int :=
  match (s.toList.dropWhile Char.isWhitespace).reverse.dropWhile Char.isWhitespace |>.reverse with
  | '-' :: rest => (parseDigits rest).map (fun n => -(n : Int))
  | '+' :: rest => (parseDigits rest).map (fun n => (n : Int))
  | l => (parseDigits l).map (fun n => (n : Int))

/-- Python `bool(int(s))`: an integer parse followed by a truthiness cast,
so every nonzero integer maps to `true` and zero to `false`. -/
def pyIntBool (s : String) : Option Bool :=
  (pyInt s).map (fun n => n != 0)

/-! ## The event payload decoders

One definition per `_parse_*` method of `InstanceSignalCollection`.
A decoder returns `none` exactly when the Python method raises
(tuple-unpack `ValueError` or `int()` `ValueError`); the dispatcher
catches that exception. A `some` result is the returned `dict`,
modelled as an ordered association list in the source's key order. -/

/-- A value stored in a decoded signal-data dict. -/
inductive Value where
  | str (s : String)
  | int (n : Int)
  | bool (b : Bool)
  | optStr (s : Option String)
  | optInt (n : Option Int)
  | list (xs : List String)
deriving DecidableEq, Repr

/-- A decoded signal-data dict: field names with values, in insertion order. -/
abbrev FieldMap := List (String × Value)

def parse_activelayout (data : String) : Option FieldMap :=
  (pySplitOnceOn ',' data).map (fun pq =>
    [("keyboard_name", Value.str pq.1), ("layout_name", Value.str pq.2)])

def parse_activespecial (data : String) : Option FieldMap :=
  (pySplitOnceOn ',' data).map (fun pq =>
    [("workspace_name", Value.optStr (if pq.1 = "" then none else some pq.1)),
     ("monitor_name", Value.str pq.2)])

def parse_activespecialv2 (data : String) : Option FieldMap := do
  let (wsId, wsName, monName) ← pyUnpack3 ',' data
  let idVal ← if wsId = "" then some none else (pyInt wsId).map some
  some [("workspace_id", Value.optInt idVal),
        ("workspace_name", Value.optStr (if wsName = "" then none else some wsName)),
        ("monitor_name", Value.str monName)]

def parse_activewindow (data : String) : Option FieldMap :=
  (pySplitOnceOn ',' data).map (fun pq =>
    [("window_class", Value.str pq.1), ("window_title", Value.str pq.2)])

def parse_activewindowv2 (data : String) : Option FieldMap :=
  some [("window_address", Value.str data)]

def parse_changefloatingmode (data : String) : Option FieldMap := do
  let (addr, flag) ← pyUnpack2All ',' data
  let b ← pyIntBool flag
  some [("window_address", Value.str addr), ("is_floating", Value.bool b)]

def parse_closelayer (data : String) : Option FieldMap :=
  some [("namespace", Value.str data)]

def parse_closewindow (data : String) : Option FieldMap :=
  some [("window_address", Value.str data)]

def parse_configreloaded (_data : String) : Option FieldMap :=
  some []

def parse_createworkspace (data : String) : Option FieldMap :=
  some [("workspace_name", Value.str data)]

def parse_createworkspacev2 (data : String) : Option FieldMap := do
  let (wsId, wsName) ← pySplitOnceOn ',' data
  let n ← pyInt wsId
  some [("workspace_id", Value.int n), ("workspace_name", Value.str wsName)]

def parse_destroyworkspace (data : String) : Option FieldMap :=
  some [("workspace_name", Value.str data)]

def parse_destroyworkspacev2 (data : String) : Option FieldMap := do
  let (wsId, wsName) ← pySplitOnceOn ',' data
  let n ← pyInt wsId
  some [("workspace_id", Value.int n), ("workspace_name", Value.str wsName)]

def parse_focusedmon (data : String) : Option FieldMap :=
  (pySplitOnceOn ',' data).map (fun pq =>
    [("monitor_name", Value.str pq.1), ("workspace_name", Value.str pq.2)])

def parse_focusedmonv2 (data : String) : Option FieldMap := do
  let (monName, wsId) ← pyRSplitOnceOn ',' data
  let n ← pyInt wsId
  some [("monitor_name", Value.str monName), ("workspace_id", Value.int n)]

def parse_fullscreen (data : String) : Option FieldMap :=
  (pyIntBool data).map (fun b => [("is_fullscreen", Value.bool b)])

def parse_ignoregrouplock (data : String) : Option FieldMap :=
  (pyIntBool data).map (fun b => [("ignore_group_lock_enabled", Value.bool b)])

def parse_lockgroups (data : String) : Option FieldMap :=
  (pyIntBool data).map (fun b => [("lock_groups_enabled", Value.bool b)])

def parse_minimized (data : String) : Option FieldMap := do
  let (addr, flag) ← pyUnpack2All ',' data
  let b ← pyIntBool flag
  some [("window_address", Value.str addr), ("is_minimized", Value.bool b)]

def parse_monitoradded (data : String) : Option FieldMap :=
  some [("monitor_name", Value.str data)]

def parse_monitoraddedv2 (data : String) : Option FieldMap := do
  let (monId, monName, monDesc) ← pyUnpack3 ',' data
  let n ← pyInt monId
  some [("monitor_id", Value.int n), ("monitor_name", Value.str monName),
        ("monitor_description", Value.str monDesc)]

def parse_monitorremoved (data : String) : Option FieldMap :=
  some [("monitor_name", Value.str data)]

def parse_moveintogroup (data : String) : Option FieldMap :=
  some [("window_address", Value.str data)]

def parse_moveoutofgroup (data : String) : Option FieldMap :=
  some [("window_address", Value.str data)]

def parse_movewindow (data : String) : Option FieldMap :=
  (pySplitOnceOn ',' data).map (fun pq =>
    [("window_address", Value.str pq.1), ("workspace_name", Value.str pq.2)])

def parse_movewindowv2 (data : String) : Option FieldMap := do
  let (addr, other) ← pySplitOnceOn ',' data
  let (wsId, wsName) ← pyRSplitOnceOn ',' other
  let n ← pyInt wsId
  some [("window_address", Value.str addr), ("workspace_id", Value.int n),
        ("workspace_name", Value.str wsName)]

def parse_moveworkspace (data : String) : Option FieldMap :=
  (pyRSplitOnceOn ',' data).map (fun pq =>
    [("workspace_name", Value.str pq.1), ("monitor_name", Value.str pq.2)])

def parse_moveworkspacev2 (data : String) : Option FieldMap := do
  let (wsId, other) ← pySplitOnceOn ',' data
  let (wsName, monName) ← pyRSplitOnceOn ',' other
  let n ← pyInt wsId
  some [("workspace_id", Value.int n), ("workspace_name", Value.str wsName),
        ("monitor_name", Value.str monName)]

def parse_openlayer (data : String) : Option FieldMap :=
  some [("namespace", Value.str data)]

def parse_openwindow (data : String) : Option FieldMap :=
  (pyUnpack4 ',' data).map (fun q =>
    [("window_address", Value.str q.1), ("workspace_name", Value.str q.2.1),
     ("window_class", Value.str q.2.2.1), ("window_title", Value.str q.2.2.2)])

def parse_pin (data : String) : Option FieldMap := do
  let (addr, flag) ← pyUnpack2All ',' data
  let b ← pyIntBool flag
  some [("window_address", Value.str addr), ("is_pinned", Value.bool b)]

def parse_renameworkspace (data : String) : Option FieldMap := do
  let (wsId, newName) ← pySplitOnceOn ',' data
  let n ← pyInt wsId
  some [("workspace_id", Value.int n), ("new_name", Value.str newName)]

def parse_screencast (data : String) : Option FieldMap := do
  let (enabled, typeNumeric) ← pyUnpack2All ',' data
  let t ← pyInt typeNumeric
  let b ← pyIntBool enabled
  some [("screencast_enabled", Value.bool b),
        ("screencast_type", Value.str (if t = 0 then "MONITOR" else "WINDOW"))]

def parse_submap (data : String) : Option FieldMap :=
  some [("submap_name", Value.optStr (if data = "" then none else some data))]

def parse_togglegroup (data : String) : Option FieldMap := do
  let (active, addrs) ← pySplitOnceOn ',' data
  let b ← pyIntBool active
  some [("group_is_active", Value.bool b),
        ("window_addresses", Value.list (pySplitAllOn ',' addrs))]

def parse_urgent (data : String) : Option FieldMap :=
  some [("window_address", Value.str data)]

def parse_windowtitle (data : String) : Option FieldMap :=
  some [("window_address", Value.str data)]

def parse_windowtitlev2 (data : String) : Option FieldMap :=
  (pySplitOnceOn ',' data).map (fun pq =>
    [("window_address", Value.str pq.1), ("window_title", Value.str pq.2)])

def parse_workspace (data : String) : Option FieldMap :=
  some [("workspace_name", Value.str data)]

def parse_workspacev2 (data : String) : Option FieldMap := do
  let (wsId, wsName) ← pyRSplitOnceOn ',' data
  let n ← pyInt wsId
  some [("workspace_name", Value.str wsName), ("workspace_id", Value.int n)]

/-- The event-name registry: `getattr(self, "_parse_" + event_name)`.
`none` models the `AttributeError` for a name outside the closed vocabulary.
The signal attribute lookup and the decoder attribute lookup succeed for
exactly the same names, so one registry models both `getattr` calls. -/
def parseRegistry (name : String) : Option (String → Option FieldMap) :=
  match name with
  | "activelayout" => some parse_activelayout
  | "activespecial" => some parse_activespecial
  | "activespecialv2" => some parse_activespecialv2
  | "activewindow" => some parse_activewindow
  | "activewindowv2" => some parse_activewindowv2
  | "changefloatingmode" => some parse_changefloatingmode
  | "closelayer" => some parse_closelayer
  | "closewindow" => some parse_closewindow
  | "configreloaded" => some parse_configreloaded
  | "createworkspace" => some parse_createworkspace
  | "createworkspacev2" => some parse_createworkspacev2
  | "destroyworkspace" => some parse_destroyworkspace
  | "destroyworkspacev2" => some parse_destroyworkspacev2
  | "focusedmon" => some parse_focusedmon
  | "focusedmonv2" => some parse_focusedmonv2
  | "fullscreen" => some parse_fullscreen
  | "ignoregrouplock" => some parse_ignoregrouplock
  | "lockgroups" => some parse_lockgroups
  | "minimized" => some parse_minimized
  | "monitoradded" => some parse_monitoradded
  | "monitoraddedv2" => some parse_monitoraddedv2
  | "monitorremoved" => some parse_monitorremoved
  | "moveintogroup" => some parse_moveintogroup
  | "moveoutofgroup" => some parse_moveoutofgroup
  | "movewindow" => some parse_movewindow
  | "movewindowv2" => some parse_movewindowv2
  | "moveworkspace" => some parse_moveworkspace
  | "moveworkspacev2" => some parse_moveworkspacev2
  | "openlayer" => some parse_openlayer
  | "openwindow" => some parse_openwindow
  | "pin" => some parse_pin
  | "renameworkspace" => some parse_renameworkspace
  | "screencast" => some parse_screencast
  | "submap" => some parse_submap
  | "togglegroup" => some parse_togglegroup
  | "urgent" => some parse_urgent
  | "windowtitle" => some parse_windowtitle
  | "windowtitlev2" => some parse_windowtitlev2
  | "workspace" => some parse_workspace
  | "workspacev2" => some parse_workspacev2
  | _ => none

/-! ## The line dispatcher `InstanceSignalCollection._handle_socket_data`

The dispatcher is parametrised over the decoder registry so that
"the decoder is not invoked" can be stated as independence from the
registry's decoding functions. Observer lists are abstracted to their
length (`observers : String → Nat`), which is all the dispatcher inspects
(`if not signal._observers`). -/

/-- The outcome of handling one line in `InstanceSignalCollection._handle_socket_data`. -/
inductive HandleOutcome where
  /-- The event name resolved no signal attribute: logged and skipped. -/
  | skippedUnknown
  /-- The signal had no observers: returned before any payload parsing. -/
  | skippedNoObservers
  /-- The decoder raised: logged and the event dropped. -/
  | droppedParseError
  /-- The signal was emitted with the decoded data. -/
  | emitted (name : String) (fields : FieldMap)
deriving DecidableEq, Repr

/-- `InstanceSignalCollection._handle_socket_data(data)`, with the decoder
registry `reg` a parameter. The `.error .valueError` case is the tuple-unpack
`ValueError` of `data.split(">>", maxsplit=1)` on a line without the
delimiter, which the source does not catch. -/
def handleSocketDataWith (reg : String → Option (String → Option FieldMap))
    (observers : String → Nat) (data : String) : Except PyError HandleOutcome :=
  match pySplitArrow data with
  | none => .error .valueError
  | some (eventName, eventData) =>
    match reg eventName with
    | none => .ok .skippedUnknown
    | some decode =>
      if observers eventName = 0 then .ok .skippedNoObservers
      else
        match decode eventData with
        | none => .ok .droppedParseError
        | some fields => .ok (.emitted eventName fields)

/-- `InstanceSignalCollection._handle_socket_data` with the real decoder registry. -/
def handleSocketData (observers : String → Nat) (data : String) :
    Except PyError HandleOutcome :=
  handleSocketDataWith parseRegistry observers data

/-! ## The deprecated per-event handler inside `Instance.watch` -/

/-- A value emitted on one of the six deprecated per-event signals. -/
inductive DepEmission where
  | createdWindowAddress (address : String)
  | destroyedWindowAddress (address : String)
  | activeWindowAddress (address : Option String)
  | createdWorkspaceId (id : Int)
  | destroyedWorkspaceId (id : Int)
  | activeWorkspaceId (id : Int)
deriving DecidableEq, Repr

/-- The keys of `_deprecated_signal_for_event` in `Instance.watch`. -/
def deprecatedEventNames : List String :=
  ["openwindow", "closewindow", "activewindowv2",
   "createworkspace", "destroyworkspace", "workspace"]

/-- `int(event_data) if event_data not in ['special', 'special:special'] else -99`:
the special-workspace sentinel mapping of the deprecated workspace handlers. -/
def depWorkspaceId (d : String) : Option Int :=
  if d = "special" ∨ d = "special:special" then some (-99) else pyInt d

/-- `_deprecated_handle_socket_data(event_name, event_data)` inside
`Instance.watch`: returns the deprecated emission if one happens, `none`
if the deprecated signal has no observers. The `int()` calls of the three
workspace events are not wrapped in any `try`, so their `ValueError`
propagates (`.error`). -/
def deprecatedHandle (obsDep : String → Nat) (eventName eventData : String) :
    Except PyError (Option DepEmission) :=
  if obsDep eventName = 0 then .ok none
  else if eventName = "openwindow" then
    .ok (some (.createdWindowAddress ((pySplitAllOn ',' eventData).headD "")))
  else if eventName = "closewindow" then
    .ok (some (.destroyedWindowAddress eventData))
  else if eventName = "activewindowv2" then
    .ok (some (.activeWindowAddress (if eventData = "," then none else some eventData)))
  else if eventName = "createworkspace" then
    match depWorkspaceId eventData with
    | some n => .ok (some (.createdWorkspaceId n))
    | none => .error .valueError
  else if eventName = "destroyworkspace" then
    match depWorkspaceId eventData with
    | some n => .ok (some (.destroyedWorkspaceId n))
    | none => .error .valueError
  else if eventName = "workspace" then
    match depWorkspaceId eventData with
    | some n => .ok (some (.activeWorkspaceId n))
    | none => .error .valueError
  else .ok none

/-! ## The buffer handler `_handle_socket_data` inside `Instance.watch` -/

/-- One observable event of processing a line: a deprecated-signal emission
or the outcome of the current signal path. -/
inductive LineEvent where
  | deprecatedEmit (e : DepEmission)
  | currentOutcome (o : HandleOutcome)
deriving DecidableEq, Repr

/-- Processing of one line inside `Instance.watch._handle_socket_data`:
split at the first `">>"` (an uncaught `ValueError` when absent), run the
deprecated handler when the name is in `_deprecated_signal_for_event`,
then hand the full line to `InstanceSignalCollection._handle_socket_data`. -/
def processLine (obsDep obs : String → Nat) (line : String) :
    Except PyError (List LineEvent) :=
  match pySplitArrow line with
  | none => .error .valueError
  | some (eventName, eventData) =>
    match (if deprecatedEventNames.contains eventName
           then deprecatedHandle obsDep eventName eventData
           else .ok none) with
    | .error e => .error e
    | .ok dep =>
      match handleSocketData obs line with
      | .error e => .error e
      | .ok o => .ok ((dep.toList.map LineEvent.deprecatedEmit) ++ [LineEvent.currentOutcome o])

/-- `list(filter(lambda line: len(line) > 0, data.split('\n')))`. -/
def nonEmptyLines (data : String) : List String :=
  (pySplitAllOn '\n' data).filter (fun l => l ≠ "")

/-- Process a list of lines in order; an uncaught exception stops processing,
losing all later lines (the first component collects the events of the lines
that completed, the second the exception if one escaped). -/
def processLinesGo (obsDep obs : String → Nat) : List String → List LineEvent × Option PyError
  | [] => ([], none)
  | l :: ls =>
    match processLine obsDep obs l with
    | .error e => ([], some e)
    | .ok evs =>
      match processLinesGo obsDep obs ls with
      | (rest, err) => (evs ++ rest, err)

/-- `Instance.watch._handle_socket_data(data)`: split the drained buffer on
newlines, discard empty segments, process each line in order. -/
def processBuffer (obsDep obs : String → Nat) (data : String) :
    List LineEvent × Option PyError :=
  processLinesGo obsDep obs (nonEmptyLines data)

/-! ## The watch loop `Instance.watch`

The loop body is `connect`; then forever `wait`; `read`; handle — all inside
`try: ... finally: self.event_socket.close()`. The model records the trace
of socket operations performed, so that "close() is invoked before watch()
returns" is a statement about the trace. The infinite loop is observed along
a finite trace of wait/read outcomes; trace exhaustion is modelled as the
interrupting exception (e.g. `KeyboardInterrupt`) by which the blocking loop
actually terminates. The handler is an arbitrary function, covering every
behaviour of decoding, resolution and observer callbacks — including an
observer exception propagating out of `emit`. -/

/-- One iteration's socket outcomes: what `wait()` and `read()` do. -/
structure WatchRound where
  waitResult : Except PyError Unit
  readResult : Except PyError String

/-- The environment a `watch()` call runs against. `socketCreated` records
whether the underlying OS socket object was created (it is assigned before
the connect system call, so it exists even when connecting fails; only a
failure of socket creation itself leaves it absent, making the `close()` in
the `finally` raise `SocketError`). -/
structure SocketWorld where
  socketCreated : Bool
  connectResult : Except PyError Unit
  rounds : List WatchRound

/-- A socket operation, as recorded in the trace of a `watch()` call. -/
inductive SockOp where
  | connectOp
  | waitOp
  | readOp
  | handleOp
  | closeOp
deriving DecidableEq, Repr

/-- The `while True` body of `Instance.watch`: wait, read, handle, repeat.
Returns the escaping exception and the trace of operations performed. -/
def watchBody (handler : String → Except PyError Unit) :
    List WatchRound → Except PyError Unit × List SockOp
  | [] => (.error .interrupted, [])
  | r :: rest =>
    match r.waitResult with
    | .error e => (.error e, [.waitOp])
    | .ok _ =>
      match r.readResult with
      | .error e => (.error e, [.waitOp, .readOp])
      | .ok d =>
        match handler d with
        | .error e => (.error e, [.waitOp, .readOp, .handleOp])
        | .ok _ =>
          match watchBody handler rest with
          | (res, ops) => (res, .waitOp :: .readOp :: .handleOp :: ops)

/-- The result of a `watch()` call: its outcome and the trace of socket
operations it performed, in order. -/
structure WatchResult where
  result : Except PyError Unit
  ops : List SockOp
deriving Repr

/-- `Instance.watch()`: `try: connect; while True: wait; read; handle
finally: close`. The `finally` clause appends the `close()` call on every
exit path; when the socket object was never created, that `close()` itself
raises `SocketError`, which (per Python `finally` semantics) replaces the
body's exception. -/
def watchRun (handler : String → Except PyError Unit) (w : SocketWorld) : WatchResult :=
  let body : Except PyError Unit × List SockOp :=
    match w.connectResult with
    | .error e => (.error e, [.connectOp])
    | .ok _ =>
      match watchBody handler w.rounds with
      | (res, ops) => (res, .connectOp :: ops)
  if w.socketCreated then
    { result := body.1, ops := body.2 ++ [.closeOp] }
  else
    { result := .error .socketError, ops := body.2 ++ [.closeOp] }

/-- The handler `Instance.watch` installs for each drained buffer: process
the buffer; an exception escaping the per-line processing escapes the handler. -/
def pumpHandler (obsDep obs : String → Nat) (data : String) : Except PyError Unit :=
  match (processBuffer obsDep obs data).2 with
  | some e => .error e
  | none => .ok ()

/-! ## `AbstractSocket.read` of `hyprpy/utils/sockets.py`

`read()` loops on `recv(4096)`: a nonempty chunk is accumulated, an empty
chunk (EOF) breaks the loop, a `BlockingIOError` with errno 11 breaks the
loop, a `BlockingIOError` with any other errno is re-raised as `SocketError`,
and any exception that is not a `BlockingIOError` is not caught at all and
propagates as its own type. Chunks are modelled as text (the UTF-8 decode of
the concatenated bytes is the concatenation of the chunk texts). -/

/-- The outcome of one `recv(4096)` call. -/
inductive RecvResult where
  /-- `recv` returned bytes; the empty string is the EOF return. -/
  | chunk (s : String)
  /-- `recv` raised `BlockingIOError` with this errno. -/
  | blockingErr (errno : Nat)
  /-- `recv` raised an exception that is not a `BlockingIOError`. -/
  | otherErr (e : PyError)
deriving DecidableEq, Repr

/-- The `while True` accumulation loop of `read()`. An exhausted outcome
trace denotes a socket that would report would-block on the next `recv`. -/
def sockReadGo : List RecvResult → String → Except PyError String
  | [], acc => .ok acc
  | ev :: rest, acc =>
    match ev with
    | .chunk s => if s = "" then .ok acc else sockReadGo rest (acc ++ s)
    | .blockingErr errno => if errno = 11 then .ok acc else .error .socketError
    | .otherErr e => .error e

/-- `AbstractSocket.read()`: raises `SocketError` when the socket is not
connected, otherwise drains the available chunks. -/
def sockRead (connected : Bool) (events : List RecvResult) : Except PyError String :=
  if connected then sockReadGo events "" else .error .socketError

/-! ## The signal bus of `hyprpy/utils/signals.py`

`Signal.connect` runs `assert_is_callable_and_has_first_param_sender` and
`assert_is_callable_and_accepts_kwargs` (from `utils/assertions.py`) before
appending; `Signal.disconnect` is `list.remove`; `Signal.emit` calls every
observer in list order. A callback is modelled by what those reflective
assertions inspect: callability, the ordered parameter names of its
signature, and whether the signature has a `VAR_KEYWORD` parameter
(modelled for plain functions, where `inspect` does not drop a bound `self`). -/

/-- A callback as seen by the signature assertions, tagged with an identity
for `list.remove` equality. -/
structure Callback where
  id : Nat
  isCallable : Bool
  params : List String
  hasVarKw : Bool
deriving DecidableEq, Repr

/-- The two assertions run by `Signal.connect`, in source order:
`TypeError` when the object is not callable, `ValueError` when its first
parameter is not named `sender`, `ValueError` when its signature has no
`**kwargs` parameter; `none` when the callback is acceptable. -/
def connectCheck (cb : Callback) : Option PyError :=
  if ¬cb.isCallable then some .typeError
  else if cb.params.head? ≠ some "sender" then some .valueError
  else if ¬cb.hasVarKw then some .valueError
  else none

/-- `Signal.connect(callback)`: assert, then append to the observer list. -/
def signalConnect (obs : List Callback) (cb : Callback) : Except PyError (List Callback) :=
  match connectCheck cb with
  | some e => .error e
  | none => .ok (obs ++ [cb])

/-- Python `list.remove`: drop the first occurrence, `none` when absent. -/
def listRemoveFirst : List Callback → Callback → Option (List Callback)
  | [], _ => none
  | x :: xs, a => if x = a then some xs else (listRemoveFirst xs a).map (x :: ·)

/-- `Signal.disconnect(callback)`: `list.remove`, raising `ValueError`
when the callback is not in the observer list. -/
def signalDisconnect (obs : List Callback) (cb : Callback) : Except PyError (List Callback) :=
  match listRemoveFirst obs cb with
  | some l => .ok l
  | none => .error .valueError

/-- `Signal.emit(**kwargs)`: the callbacks invoked, in observer-list order,
one invocation per registration. -/
def signalEmitCalls (obs : List Callback) : List Nat :=
  obs.map Callback.id

/-- The outcome the current signal path produces for a line that contains the
`">>"` delimiter (the dispatcher cannot raise on such a line). -/
def currentOutcomeOf (obs : String → Nat) (l : String) : HandleOutcome :=
  match handleSocketData obs l with
  | .ok o => o
  | .error _ => .skippedUnknown

/-! ## Helper lemmas about the string primitives -/

theorem toList_append (a b : String) : (a ++ b).toList = a.toList ++ b.toList := by
  cases a; cases b; rfl

theorem mk_toList (s : String) : String.mk s.toList = s := rfl

theorem splitAllChar_of_not_mem (c : Char) (l : List Char) (h : c ∉ l) :
    splitAllChar c l = [l] := by
  induction l with
  | nil => rfl
  | cons x xs ih =>
    have hx : ¬x = c := fun he => h (he ▸ List.mem_cons_self x xs)
    have hxs : c ∉ xs := fun hm => h (List.mem_cons_of_mem x hm)
    simp [splitAllChar, ih hxs, hx]

theorem splitAllChar_append (c : Char) (a b : List Char) (h : c ∉ a) :
    splitAllChar c (a ++ c :: b) = a :: splitAllChar c b := by
  induction a with
  | nil =>
    simp only [List.nil_append, splitAllChar]
    match hb : splitAllChar c b with
    | [] => simp [hb]
    | y :: ys => simp [hb]
  | cons x xs ih =>
    have hx : ¬x = c := fun he => h (he ▸ List.mem_cons_self x xs)
    have hxs : c ∉ xs := fun hm => h (List.mem_cons_of_mem x hm)
    simp [splitAllChar, ih hxs, hx]

theorem rsplitLastChar_of_not_mem (c : Char) (l : List Char) (h : c ∉ l) :
    rsplitLastChar c l = none := by
  induction l with
  | nil => rfl
  | cons x xs ih =>
    have hx : ¬x = c := fun he => h (he ▸ List.mem_cons_self x xs)
    have hxs : c ∉ xs := fun hm => h (List.mem_cons_of_mem x hm)
    simp [rsplitLastChar, ih hxs, hx]

theorem rsplitLastChar_append (c : Char) (a b : List Char) (h : c ∉ b) :
    rsplitLastChar c (a ++ c :: b) = some (a, b) := by
  induction a with
  | nil => simp [rsplitLastChar, rsplitLastChar_of_not_mem c b h]
  | cons x xs ih => simp [rsplitLastChar, ih]

theorem toList_comma (a b : String) :
    (a ++ "," ++ b).toList = a.toList ++ ',' :: b.toList := by
  have h1 : ",".toList = [','] := by decide
  rw [toList_append, toList_append, h1, List.append_assoc]
  rfl

theorem toList_newline (a b : String) :
    (a ++ "\n" ++ b).toList = a.toList ++ '\n' :: b.toList := by
  have h1 : "\n".toList = ['\n'] := by decide
  rw [toList_append, toList_append, h1, List.append_assoc]
  rfl

theorem pyRSplitOnceOn_append (a b : String) (h : ',' ∉ b.toList) :
    pyRSplitOnceOn ',' (a ++ "," ++ b) = some (a, b) := by
  unfold pyRSplitOnceOn
  rw [toList_comma, rsplitLastChar_append ',' a.toList b.toList h]
  rfl

theorem pyUnpack2All_append (a b : String) (ha : ',' ∉ a.toList) (hb : ',' ∉ b.toList) :
    pyUnpack2All ',' (a ++ "," ++ b) = some (a, b) := by
  unfold pyUnpack2All pySplitAllOn
  rw [toList_comma, splitAllChar_append ',' a.toList b.toList ha,
    splitAllChar_of_not_mem ',' b.toList hb]
  rfl

theorem nonEmptyLines_cons (line rest : String) (hne : line ≠ "")
    (hnl : '\n' ∉ line.toList) :
    nonEmptyLines (line ++ "\n" ++ rest) = line :: nonEmptyLines rest := by
  unfold nonEmptyLines pySplitAllOn
  rw [toList_newline, splitAllChar_append '\n' line.toList rest.toList hnl]
  simp [mk_toList, hne]

/-! ## Claim theorems -/

/-- Claim C6: decoding the `openwindow` payload
`"0x1234,1,kitty,my,title,with,commas"` splits at most 3 times on commas
into exactly 4 fields, so the final field absorbs all remaining commas
verbatim: `window_address = "0x1234"`, `workspace_name = "1"`,
`window_class = "kitty"`, `window_title = "my,title,with,commas"`. -/
theorem openwindow_maxsplit_absorbs_commas :
    parse_openwindow "0x1234,1,kitty,my,title,with,commas" =
      some [("window_address", Value.str "0x1234"),
            ("workspace_name", Value.str "1"),
            ("window_class", Value.str "kitty"),
            ("window_title", Value.str "my,title,with,commas")] := by
  decide

/-- Claim C3 (counterexample): decoding `"DP-1,1"` for `workspacev2` does
not yield `workspace_name = "DP-1"` and `workspace_id = 1`; the decoder
assigns `workspace_id` from the text before the last comma, so `int("DP-1")`
raises and the decode fails. -/
theorem workspacev2_dp1_decode_fails :
    parse_workspacev2 "DP-1,1" = none := by
  decide

/-- Claim C3 (amended): `_parse_workspacev2` right-splits on the last comma
but assigns `workspace_id` from the text before it (integer-parsed) and
`workspace_name` from the text after it: for any comma-free `post` and any
`pre` parsing as the integer `n`, the payload `pre ++ "," ++ post` decodes
to `workspace_name = post`, `workspace_id = n`. -/
theorem workspacev2_rsplit_id_before_name_after (pre post : String) (n : Int)
    (hpost : ',' ∉ post.toList)
    (hpre : pyInt pre = some n) :
    parse_workspacev2 (pre ++ "," ++ post) =
      some [("workspace_name", Value.str post), ("workspace_id", Value.int n)] := by
  unfold parse_workspacev2
  rw [pyRSplitOnceOn_append pre post hpost]
  simp [hpre]

/-- Witness for the amended claim C3 at `pre = "1"`, `post = "DP-1"`. -/
theorem workspacev2_rsplit_id_before_name_after_witness :
    parse_workspacev2 ("1" ++ "," ++ "DP-1") =
      some [("workspace_name", Value.str "DP-1"), ("workspace_id", Value.int 1)] :=
  workspacev2_rsplit_id_before_name_after "1" "DP-1" 1 (by decide) (by decide)

/-- Claim C4 (counterexample): the current signal path applies no sentinel
mapping: `_parse_createworkspace("special")` returns the literal sentinel
text as `workspace_name`, not the sentinel id `-99`. -/
theorem createworkspace_current_path_no_sentinel :
    parse_createworkspace "special" = some [("workspace_name", Value.str "special")] := by
  decide

/-- Claim C4 (amended): under the deprecated signal path (with an observer
connected), a `createworkspace` payload of `"special"` or `"special:special"`
emits `created_workspace_id = -99`; the current signal path's decoder applies
no sentinel mapping and returns the raw payload as `workspace_name` for every
payload. -/
theorem createworkspace_sentinel_deprecated_only :
    deprecatedHandle (fun _ => 1) "createworkspace" "special" =
      .ok (some (DepEmission.createdWorkspaceId (-99))) ∧
    deprecatedHandle (fun _ => 1) "createworkspace" "special:special" =
      .ok (some (DepEmission.createdWorkspaceId (-99))) ∧
    (∀ d : String, parse_createworkspace d = some [("workspace_name", Value.str d)]) :=
  ⟨by decide, by decide, fun _ => rfl⟩

/-- Claim C5 (counterexample): the boolean-field decoders do not accept only
the characters `"0"` and `"1"`: the payload `"2"` is not a decode failure for
`fullscreen`; it is accepted and decoded as `True`. -/
theorem fullscreen_accepts_two_as_true :
    parse_fullscreen "2" = some [("is_fullscreen", Value.bool true)] := by
  decide

/-- Claim C5 (amended): boolean fields are decoded by `bool(int(text))`:
every payload that parses as an integer `n` is accepted and decoded as the
boolean `n ≠ 0` (so `"2"`, `"-5"`, `"01"` are all accepted), and only text
that fails the integer parse is a decode failure. Shown for the single-field
boolean events (`fullscreen`, `ignoregrouplock`, `lockgroups`) and for the
two-field events (`changefloatingmode`, `pin`, `minimized`) on a comma-free
address and flag. -/
theorem boolean_fields_accept_any_integer (s addr : String) (n : Int)
    (hs : pyInt s = some n)
    (hcs : ',' ∉ s.toList)
    (hca : ',' ∉ addr.toList) :
    parse_fullscreen s = some [("is_fullscreen", Value.bool (n != 0))] ∧
    parse_ignoregrouplock s = some [("ignore_group_lock_enabled", Value.bool (n != 0))] ∧
    parse_lockgroups s = some [("lock_groups_enabled", Value.bool (n != 0))] ∧
    parse_changefloatingmode (addr ++ "," ++ s) =
      some [("window_address", Value.str addr), ("is_floating", Value.bool (n != 0))] ∧
    parse_pin (addr ++ "," ++ s) =
      some [("window_address", Value.str addr), ("is_pinned", Value.bool (n != 0))] ∧
    parse_minimized (addr ++ "," ++ s) =
      some [("window_address", Value.str addr), ("is_minimized", Value.bool (n != 0))] ∧
    (∀ t : String, pyInt t = none → parse_fullscreen t = none) := by
  have hb : pyIntBool s = some (n != 0) := by simp [pyIntBool, hs]
  have hu : pyUnpack2All ',' (addr ++ "," ++ s) = some (addr, s) :=
    pyUnpack2All_append addr s hca hcs
  refine ⟨?_, ?_, ?_, ?_, ?_, ?_, ?_⟩
  · simp [parse_fullscreen, hb]
  · simp [parse_ignoregrouplock, hb]
  · simp [parse_lockgroups, hb]
  · simp [parse_changefloatingmode, hu, hb]
  · simp [parse_pin, hu, hb]
  · simp [parse_minimized, hu, hb]
  · intro t ht
    simp [parse_fullscreen, pyIntBool, ht]

/-- Witness for the amended claim C5 at `s = "2"`, `addr = "0x1"`, `n = 2`. -/
theorem boolean_fields_accept_any_integer_witness :
    parse_changefloatingmode ("0x1" ++ "," ++ "2") =
      some [("window_address", Value.str "0x1"), ("is_floating", Value.bool (2 != 0))] :=
  (boolean_fields_accept_any_integer "2" "0x1" 2 (by decide) (by decide) (by decide)).2.2.2.1

theorem handleSocketDataWith_ok (reg : String → Option (String → Option FieldMap))
    (obs : String → Nat) (l : String) (p : String × String)
    (hs : pySplitArrow l = some p) :
    ∃ o, handleSocketDataWith reg obs l = .ok o := by
  obtain ⟨name, d⟩ := p
  cases hr : reg name with
  | none => exact ⟨.skippedUnknown, by simp [handleSocketDataWith, hs, hr]⟩
  | some decode =>
    by_cases ho : obs name = 0
    · exact ⟨.skippedNoObservers, by simp [handleSocketDataWith, hs, hr, ho]⟩
    · cases hd : decode d with
      | none => exact ⟨.droppedParseError, by simp [handleSocketDataWith, hs, hr, ho, hd]⟩
      | some fields =>
        exact ⟨.emitted name fields, by simp [handleSocketDataWith, hs, hr, ho, hd]⟩

theorem processLine_ok_of_no_dep (obsDep obs : String → Nat) (l : String)
    (hdep : ∀ n, obsDep n = 0)
    (hs : (pySplitArrow l).isSome) :
    processLine obsDep obs l = .ok [LineEvent.currentOutcome (currentOutcomeOf obs l)] := by
  rcases Option.isSome_iff_exists.mp hs with ⟨⟨name, d⟩, hsp⟩
  obtain ⟨o, ho⟩ := handleSocketDataWith_ok parseRegistry obs l (name, d) hsp
  have ho2 : handleSocketData obs l = .ok o := ho
  have hdep0 : deprecatedHandle obsDep name d = .ok none := by
    simp [deprecatedHandle, hdep name]
  have hdh : (if deprecatedEventNames.contains name
      then deprecatedHandle obsDep name d else .ok none) =
        Except.ok (none : Option DepEmission) := by
    cases deprecatedEventNames.contains name <;> simp [hdep0]
  have hco : currentOutcomeOf obs l = o := by
    unfold currentOutcomeOf
    rw [ho2]
  simp only [processLine, hsp, hdh, ho2, hco]
  rfl

theorem processLinesGo_all_ok (obsDep obs : String → Nat) (ls : List String)
    (hdep : ∀ n, obsDep n = 0)
    (hs : ∀ l ∈ ls, (pySplitArrow l).isSome) :
    processLinesGo obsDep obs ls =
      (ls.map (fun l => LineEvent.currentOutcome (currentOutcomeOf obs l)), none) := by
  induction ls with
  | nil => rfl
  | cons l ls ih =>
    have h1 := processLine_ok_of_no_dep obsDep obs l hdep (hs l (List.mem_cons_self l ls))
    have h2 := ih (fun x hx => hs x (List.mem_cons_of_mem l hx))
    simp [processLinesGo, h1, h2]

/-- Claim C1: when a line's event name is in the closed vocabulary and the
corresponding signal has zero observers, the dispatcher returns
`skippedNoObservers` before any payload parsing — the outcome is the same
for every decoder registry, so no decoder is invoked and nothing is emitted.
The deprecated per-event handler likewise returns without parsing when
its deprecated signal has zero observers. -/
theorem zero_observers_skip_decode
    (reg : String → Option (String → Option FieldMap)) (obs obsDep : String → Nat)
    (data name payload : String)
    (hsplit : pySplitArrow data = some (name, payload))
    (hreg : (reg name).isSome)
    (hobs : obs name = 0)
    (hdep : obsDep name = 0) :
    handleSocketDataWith reg obs data = .ok .skippedNoObservers ∧
    (∀ reg2 : String → Option (String → Option FieldMap), (reg2 name).isSome →
        handleSocketDataWith reg2 obs data = .ok .skippedNoObservers) ∧
    deprecatedHandle obsDep name payload = .ok none := by
  have hmain : ∀ reg2 : String → Option (String → Option FieldMap), (reg2 name).isSome →
      handleSocketDataWith reg2 obs data = .ok .skippedNoObservers := by
    intro reg2 h2
    rcases Option.isSome_iff_exists.mp h2 with ⟨decode, hdec⟩
    simp [handleSocketDataWith, hsplit, hdec, hobs]
  refine ⟨hmain reg hreg, hmain, ?_⟩
  unfold deprecatedHandle
  simp [hdep]

/-- Witness for claim C1 at the line `"workspace>>3"` with zero observers. -/
theorem zero_observers_skip_decode_witness :
    handleSocketData (fun _ => 0) "workspace>>3" = .ok .skippedNoObservers ∧
    deprecatedHandle (fun _ => 0) "workspace" "3" = .ok none := by
  have h := zero_observers_skip_decode parseRegistry (fun _ => 0) (fun _ => 0)
    "workspace>>3" "workspace" "3" (by decide) (by decide) rfl rfl
  exact ⟨h.1, h.2.2⟩

/-- Claim C2 (counterexample): with an observer on the deprecated
`signal_active_workspace_changed`, the buffer
`"workspace>>badpayload\nworkspace>>2"` makes the deprecated handler's
`int("badpayload")` raise `ValueError` out of the pump loop: no event is
dispatched and the subsequent well-formed line is never processed. -/
theorem deprecated_decode_failure_escapes_pump :
    processBuffer (fun n => if n = "workspace" then 1 else 0)
        (fun n => if n = "workspace" then 1 else 0)
        "workspace>>badpayload\nworkspace>>2" = ([], some PyError.valueError) := by
  decide

/-- Claim C2 (amended): decode failures in the current signal path are
caught and that single event dropped, and every other line in the buffer is
still processed — provided no deprecated per-event signal has observers
(each line yields exactly its current-path outcome and no exception escapes
the pump loop). -/
theorem decode_failure_dropped_when_no_deprecated_observers
    (obsDep obs : String → Nat) (data : String)
    (hdep : ∀ n, obsDep n = 0)
    (hlines : ∀ l ∈ nonEmptyLines data, (pySplitArrow l).isSome) :
    processBuffer obsDep obs data =
      ((nonEmptyLines data).map (fun l => LineEvent.currentOutcome (currentOutcomeOf obs l)),
       none) :=
  processLinesGo_all_ok obsDep obs (nonEmptyLines data) hdep hlines

/-- Witness for the amended claim C2: a malformed `workspacev2` payload is
dropped and the following well-formed `workspace` line still dispatches. -/
theorem decode_failure_dropped_witness :
    processBuffer (fun _ => 0) (fun _ => 1) "workspacev2>>oops\nworkspace>>2" =
      ([LineEvent.currentOutcome HandleOutcome.droppedParseError,
        LineEvent.currentOutcome
          (HandleOutcome.emitted "workspace" [("workspace_name", Value.str "2")])],
       none) := by
  have h := decode_failure_dropped_when_no_deprecated_observers (fun _ => 0) (fun _ => 1)
    "workspacev2>>oops\nworkspace>>2" (fun _ => rfl) (by decide)
  rw [h]
  decide

theorem getLast?_append_singleton {α : Type} (l : List α) (a : α) :
    (l ++ [a]).getLast? = some a :=
  List.getLast?_concat l

/-- Claim C7: on every control-flow exit of the watch loop — a connect
failure, a wait/read error, an exception escaping the buffer handler
(including an observer exception propagating from `emit`), or the
interruption ending the blocking loop — the `finally` clause invokes the
event socket's `close()` as the last socket operation before `watch()`
returns to its caller. -/
theorem watch_close_invoked_on_every_exit
    (handler : String → Except PyError Unit) (w : SocketWorld) :
    (watchRun handler w).ops.getLast? = some SockOp.closeOp := by
  unfold watchRun
  by_cases hw : w.socketCreated <;> simp [hw, getLast?_append_singleton]

/-- Claim C10: a nonempty line without the two-character delimiter `">>"`
makes the watch loop's line handler raise `ValueError` (tuple unpack of a
one-element split): no event of the buffer is dispatched, the exception
propagates out of the pump loop, and `watch()` terminates with it after the
socket-close cleanup. -/
theorem missing_delimiter_raises_and_terminates
    (obsDep obs : String → Nat) (line rest : String)
    (hne : line ≠ "")
    (hnl : '\n' ∉ line.toList)
    (harrow : pySplitArrow line = none) :
    processBuffer obsDep obs (line ++ "\n" ++ rest) = ([], some PyError.valueError) ∧
    watchRun (pumpHandler obsDep obs)
        ⟨true, .ok (), [⟨.ok (), .ok (line ++ "\n" ++ rest)⟩]⟩ =
      ⟨.error PyError.valueError,
       [SockOp.connectOp, SockOp.waitOp, SockOp.readOp, SockOp.handleOp, SockOp.closeOp]⟩ := by
  have h1 : processBuffer obsDep obs (line ++ "\n" ++ rest) = ([], some PyError.valueError) := by
    unfold processBuffer
    rw [nonEmptyLines_cons line rest hne hnl]
    simp [processLinesGo, processLine, harrow]
  have h2 : pumpHandler obsDep obs (line ++ "\n" ++ rest) = .error PyError.valueError := by
    unfold pumpHandler
    rw [h1]
  exact ⟨h1, by simp [watchRun, watchBody, h2]⟩

/-- Witness for claim C10 at the buffer `"garbage\nworkspace>>2"`. -/
theorem missing_delimiter_raises_witness :
    processBuffer (fun _ => 0) (fun _ => 0) ("garbage" ++ "\n" ++ "workspace>>2") =
      ([], some PyError.valueError) :=
  (missing_delimiter_raises_and_terminates (fun _ => 0) (fun _ => 0) "garbage" "workspace>>2"
    (by decide) (by decide) (by decide)).1

theorem sockReadGo_chunks (cs : List String) (rest : List RecvResult) (acc : String)
    (h : ∀ s ∈ cs, s ≠ "") :
    sockReadGo (cs.map RecvResult.chunk ++ rest) acc =
      sockReadGo rest (List.foldl (fun r s => r ++ s) acc cs) := by
  induction cs generalizing acc with
  | nil => rfl
  | cons c cs ih =>
    have hc : c ≠ "" := h c (List.mem_cons_self c cs)
    have h2 : ∀ s ∈ cs, s ≠ "" := fun x hx => h x (List.mem_cons_of_mem c hx)
    simp [sockReadGo, hc, ih (acc ++ c) h2]

/-- Claim C8 (counterexample): a read error that is not a `BlockingIOError`
(here, a connection reset, errno 104) propagates out of `read()` as its own
exception type, not as `SocketError`. -/
theorem read_other_errors_propagate_unchanged :
    sockRead true [RecvResult.otherErr (PyError.osError 104)] =
      .error (PyError.osError 104) ∧
    PyError.osError 104 ≠ PyError.socketError :=
  ⟨rfl, by decide⟩

/-- Claim C8 (amended): `read()` drains all currently available chunks
without blocking (looping until the socket reports would-block, errno 11),
concatenates them, and returns the empty string when no data was available;
a `BlockingIOError` with any errno other than 11 raises `SocketError`, a
read error that is not a `BlockingIOError` propagates as its own exception
type, and reading an unconnected socket raises `SocketError`. -/
theorem read_drains_and_classifies_errors (chunks : List String) (errno : Nat) (e : PyError)
    (hch : ∀ s ∈ chunks, s ≠ "")
    (herrno : errno ≠ 11) :
    sockRead true (chunks.map RecvResult.chunk ++ [RecvResult.blockingErr 11]) =
      .ok (String.join chunks) ∧
    sockRead true [] = .ok "" ∧
    sockRead true (chunks.map RecvResult.chunk ++ [RecvResult.blockingErr errno]) =
      .error PyError.socketError ∧
    sockRead true (chunks.map RecvResult.chunk ++ [RecvResult.otherErr e]) = .error e ∧
    sockRead false (chunks.map RecvResult.chunk) = .error PyError.socketError := by
  refine ⟨?_, rfl, ?_, ?_, rfl⟩
  · show sockReadGo _ "" = _
    rw [sockReadGo_chunks chunks _ "" hch]
    simp [sockReadGo, String.join]
  · show sockReadGo _ "" = _
    rw [sockReadGo_chunks chunks _ "" hch]
    simp [sockReadGo, herrno]
  · show sockReadGo _ "" = _
    rw [sockReadGo_chunks chunks _ "" hch]
    simp [sockReadGo]

/-- Witness for the amended claim C8 at two nonempty chunks. -/
theorem read_drains_witness :
    sockRead true (["ab", "cd"].map RecvResult.chunk ++ [RecvResult.blockingErr 11]) =
      .ok (String.join ["ab", "cd"]) :=
  (read_drains_and_classifies_errors ["ab", "cd"] 115 (PyError.osError 104)
    (by decide) (by decide)).1

theorem listRemoveFirst_of_not_mem (obs : List Callback) (cb : Callback) (h : cb ∉ obs) :
    listRemoveFirst obs cb = none := by
  induction obs with
  | nil => rfl
  | cons x xs ih =>
    have hx : ¬x = cb := fun he => h (he ▸ List.mem_cons_self x xs)
    have hxs : cb ∉ xs := fun hm => h (List.mem_cons_of_mem x hm)
    simp [listRemoveFirst, hx, ih hxs]

/-- Claim C9: `Signal.connect` raises `TypeError` for a non-callable and
`ValueError` when the first parameter is not `sender` or the signature
lacks `**kwargs`, all before appending, so a subsequent `disconnect` of the
rejected callback fails with `ValueError` (not found); a valid callback
connected twice appears twice in the observer list and is invoked once per
registration on `emit`. -/
theorem connect_validation_and_duplicates (obs : List Callback) (cb : Callback)
    (hnotin : cb ∉ obs) :
    (cb.isCallable = false → signalConnect obs cb = .error PyError.typeError) ∧
    (cb.isCallable = true → cb.params.head? ≠ some "sender" →
        signalConnect obs cb = .error PyError.valueError) ∧
    (cb.isCallable = true → cb.params.head? = some "sender" → cb.hasVarKw = false →
        signalConnect obs cb = .error PyError.valueError) ∧
    signalDisconnect obs cb = .error PyError.valueError ∧
    (cb.isCallable = true → cb.params.head? = some "sender" → cb.hasVarKw = true →
        signalConnect obs cb = .ok (obs ++ [cb]) ∧
        signalConnect (obs ++ [cb]) cb = .ok (obs ++ [cb, cb]) ∧
        (obs ++ [cb, cb]).count cb = obs.count cb + 2 ∧
        signalEmitCalls (obs ++ [cb, cb]) = signalEmitCalls obs ++ [cb.id, cb.id]) := by
  refine ⟨?_, ?_, ?_, ?_, ?_⟩
  · intro h
    simp [signalConnect, connectCheck, h]
  · intro h1 h2
    simp [signalConnect, connectCheck, h1, h2]
  · intro h1 h2 h3
    simp [signalConnect, connectCheck, h1, h2, h3]
  · simp [signalDisconnect, listRemoveFirst_of_not_mem obs cb hnotin]
  · intro h1 h2 h3
    refine ⟨?_, ?_, ?_, ?_⟩
    · simp [signalConnect, connectCheck, h1, h2, h3]
    · simp [signalConnect, connectCheck, h1, h2, h3]
    · simp [List.count_append]
    · simp [signalEmitCalls]

/-- Witness for claim C9: a valid `(sender, **kwargs)` callback connected
twice on an empty observer list appears twice. -/
theorem connect_validation_witness :
    signalConnect [] ⟨0, true, ["sender"], true⟩ = .ok [⟨0, true, ["sender"], true⟩] ∧
    signalConnect [⟨0, true, ["sender"], true⟩] ⟨0, true, ["sender"], true⟩ =
      .ok [⟨0, true, ["sender"], true⟩, ⟨0, true, ["sender"], true⟩] := by
  have h := (connect_validation_and_duplicates [] ⟨0, true, ["sender"], true⟩
    (by simp)).2.2.2.2 rfl rfl rfl
  exact ⟨h.1, h.2.1⟩

end Hyprpy
